import Mathlib

/-!
Verification development for the candidate-CV processing pipeline.

The Python sources are shallowly embedded:
`PyVal` models the Python values produced by `json.loads`;
`extract_and_validate_cv_data_from_json`, `calculate_average_score_from_dict`,
the `extract_values` helpers, `ApiCredentials.is_valid` / `get_credentials`,
the retry decorators and the two blob-compensation handlers are translated
function by function.  Machine floats never carry information in the paths
under study (the validators reject them and the averaged values are integers),
so numeric values are modelled over `ℚ`.
-/

/-- Python values as returned by `json.loads`: `null`, booleans, integers,
floats, strings, lists and string-keyed objects.  The float payload is kept
as a rational; no verified path performs float arithmetic (validators reject
floats by type). -/
inductive PyVal where
  | null
  | bool (b : Bool)
  | int (n : Int)
  | float (q : ℚ)
  | str (s : String)
  | list (items : List PyVal)
  | dict (kvs : List (String × PyVal))

/-- Python `d.get(key)`: the value bound to `key`, or `None` when absent.
JSON objects bind the last duplicate occurrence of a key, hence the reverse
lookup.  A JSON `null` value and an absent key are both Python `None`, which
is what the embedded code observes. -/
def pyGet (kvs : List (String × PyVal)) (key : String) : PyVal :=
  match kvs.reverse.find? (fun kv => kv.1 == key) with
  | Option.some kv => kv.2
  | Option.none => PyVal.null

/-- Python `key in d` for a dict. -/
def hasKey (kvs : List (String × PyVal)) (key : String) : Bool :=
  kvs.any (fun kv => kv.1 == key)

/-- Whether a Python value is a `str`. -/
def isStrVal : PyVal → Bool
  | PyVal.str _ => true
  | _ => false

/-- Whether a Python value is a `dict`. -/
def isDictVal : PyVal → Bool
  | PyVal.dict _ => true
  | _ => false

/-- Validation of one `cvScore` item, from
`src/shared/validate_process_json.py` lines 62-88: the item must be a dict
holding keys `Letter` and `Result`, `Letter` a single uppercase A-Z string,
`Result` an `int` (Python `bool` explicitly excluded) within `[0, 100]`. -/
def validScoreItem (item : PyVal) : Bool :=
  match item with
  | PyVal.dict kvs =>
      if hasKey kvs "Letter" && hasKey kvs "Result" then
        (match pyGet kvs "Letter" with
         | PyVal.str s =>
             s.data.length == 1 && s.data.all (fun c => decide (65 ≤ c.toNat) && decide (c.toNat ≤ 90))
         | _ => false)
        &&
        (match pyGet kvs "Result" with
         | PyVal.int n => decide (0 ≤ n) && decide (n ≤ 100)
         | _ => false)
      else false
  | _ => false

/-- The `for index, item in enumerate(raw_cv_score)` loop of
`extract_and_validate_cv_data_from_json`: items are appended while valid,
and the first invalid item discards the whole list (`break` with
`all_items_valid = False`). -/
def validateScoreList : List PyVal → Option (List PyVal)
  | [] => Option.some []
  | item :: rest =>
      if validScoreItem item then
        match validateScoreList rest with
        | Option.some tail => Option.some (item :: tail)
        | Option.none => Option.none
      else Option.none

/-- Lines 107 and 111 of `validate_process_json.py`:
`str(x) if isinstance(x, str) else None`. -/
def strOrNone : PyVal → Option String
  | PyVal.str s => Option.some s
  | _ => Option.none

/-- Lines 53-103: dispatch on the raw `cvScore` value — Python `None`
(missing key or JSON null) and non-list values yield `None`, a list is
validated item by item. -/
def validateRawCvScore : PyVal → Option (List PyVal)
  | PyVal.null => Option.none
  | PyVal.list items => validateScoreList items
  | _ => Option.none

/-- Result of `extract_and_validate_cv_data_from_json`: a normal return of
the triple `(validated score list, cvAnalysis, nameCandidate)`, or one of the
two documented exceptions. -/
inductive ExtractOutcome where
  | ok (scores : Option (List PyVal)) (analysis : Option String) (name : Option String)
  | jsonDecodeError
  | typeError

/-- Translation of `extract_and_validate_cv_data_from_json`
(`src/shared/validate_process_json.py`).  `json.loads` is abstracted as a
`parse` function where `Option.none` models a raised `JSONDecodeError`; the
function itself is translated verbatim: the empty string short-circuits to
`(None, None, None)`, a non-dict root raises `TypeError`, otherwise the three
fields are extracted and validated. -/
def extract_and_validate_cv_data_from_json
    (parse : String → Option PyVal) (json_string : String) : ExtractOutcome :=
  if json_string = "" then ExtractOutcome.ok Option.none Option.none Option.none
  else
    match parse json_string with
    | Option.none => ExtractOutcome.jsonDecodeError
    | Option.some parsed_data =>
        match parsed_data with
        | PyVal.dict kvs =>
            ExtractOutcome.ok
              (validateRawCvScore (pyGet kvs "cvScore"))
              (strOrNone (pyGet kvs "cvAnalysis"))
              (strOrNone (pyGet kvs "nameCandidate"))
        | _ => ExtractOutcome.typeError

/-- Numeric value of a Python object for `sum`: ints, bools (`True = 1`)
and floats are summable; anything else raises `TypeError`. -/
def pyNumVal : PyVal → Option ℚ
  | PyVal.int n => Option.some (n : ℚ)
  | PyVal.bool b => Option.some (if b then 1 else 0)
  | PyVal.float q => Option.some q
  | _ => Option.none

/-- Python `sum(scores)` over a list of values: `Option.none` models the
`TypeError` raised when a value is not numeric. -/
def sumVals : List PyVal → Option ℚ
  | [] => Option.some 0
  | v :: rest =>
      match pyNumVal v, sumVals rest with
      | Option.some a, Option.some b => Option.some (a + b)
      | _, _ => Option.none

/-- Python `round` to an integer: round half to even. -/
def bankersRound (q : ℚ) : Int :=
  let f : Int := ⌊q⌋
  let frac : ℚ := q - f
  if frac < 1 / 2 then f
  else if 1 / 2 < frac then f + 1
  else if f % 2 = 0 then f else f + 1

/-- Python `round(x, 2)` modelled over the rationals. -/
def pyRound2 (q : ℚ) : ℚ := (bankersRound (q * 100) : ℚ) / 100

/-- Result of `calculate_average_score_from_dict`: a normal return of
`Optional[float]`, or the `TypeError` that `sum` raises on non-numeric dict
values. -/
inductive AvgResult where
  | ret (v : Option ℚ)
  | typeError

/-- Translation of `calculate_average_score_from_dict`
(`src/shared/promedio_scores.py`): `None` input, a non-dict input and the
empty dict all return `None`; otherwise the mean of the dict values rounded
to 2 decimals. -/
def calculate_average_score_from_dict (cv_scores_dict : PyVal) : AvgResult :=
  match cv_scores_dict with
  | PyVal.null => AvgResult.ret Option.none
  | PyVal.dict kvs =>
      if kvs.isEmpty then AvgResult.ret Option.none
      else
        match sumVals (kvs.map Prod.snd) with
        | Option.some total_score =>
            AvgResult.ret (Option.some (pyRound2 (total_score / (kvs.length : ℚ))))
        | Option.none => AvgResult.typeError
  | _ => AvgResult.ret Option.none

/-!
Embedding of `src/shared/extract_values.py`.  Python strings are sequences of
code points; `str.split` with a one-character separator is `splitOnChar` over
the string's character list.
-/

/-- Python `s.split(sep)` for a single-character separator: keeps empty
fields, `"".split(sep) = [""]`. -/
def splitOnChar (sep : Char) : List Char → List (List Char)
  | [] => [[]]
  | c :: rest =>
      let r := splitOnChar sep rest
      if c = sep then [] :: r
      else
        match r with
        | h :: t => (c :: h) :: t
        | [] => [[c]]

/-- Python `file_path.split(sep)` on a `String`, one-character separator. -/
def pySplit (s : String) (sep : Char) : List String :=
  (splitOnChar sep s.data).map String.mk

/-- Translation of `get_file_name_with_extension`: `path_sections[-1]`.
`split` always returns a non-empty list, so the default is never used. -/
def get_file_name_with_extension (file_path : String) : String :=
  (pySplit file_path '/').getLastD ""

/-- Translation of `get_file_name_without_extension`:
`".".join(file_sections[:-1])` when the name has an extension. -/
def get_file_name_without_extension (file_path : String) : String :=
  let file_name := get_file_name_with_extension file_path
  let file_sections := pySplit file_name '.'
  if file_sections.length > 1 then
    String.intercalate "." file_sections.dropLast
  else file_name

/-- Translation of `get_id_rank`: first underscore-separated token of the
extension-less file name (`parts[0]`; `split` is never empty, so the guard
`len(parts) > 0` always holds). -/
def get_id_rank (file_path : String) : String :=
  let file_name := get_file_name_without_extension file_path
  let parts := pySplit file_name '_'
  if parts.length > 0 then parts.headD "" else ""

/-- Translation of `get_id_candidate`: second underscore-separated token
(`parts[1]`), or the empty string when there is none. -/
def get_id_candidate (file_path : String) : String :=
  let file_name := get_file_name_without_extension file_path
  let parts := pySplit file_name '_'
  if parts.length > 1 then parts.getD 1 "" else ""

/-- The orchestrator's identification gate, `function_app.py` lines 344-349:
`if not rank_id or not candidate_id: raise ValueError(...)` — `true` means
the run is routed to the fatal identification failure. -/
def id_extraction_fatal (file_name : String) : Bool :=
  if get_id_rank file_name = "" ∨ get_id_candidate file_name = "" then true else false

/-!
Embedding of `src/domain/entities/api_credentials.py` and the credential
cache of `src/infrastructure/api_rest/api_rest_adapter.py`.  Time is an
integer number of seconds; the two `datetime.now()` calls inside one
`is_valid` invocation are the same instant `now`.
-/

/-- TOKEN_EXPIRATION_SECONDS = TOKEN_EXPIRATION_MINUTES * 60 in
`api_rest_adapter.py`. -/
def TOKEN_EXPIRATION_SECONDS : Int := 20 * 60

/-- The `ApiCredentials` dataclass: a bearer token and an optional
`expires_in` duration in seconds. -/
structure ApiCredentials where
  token : String
  expires_in : Option Int
deriving DecidableEq

/-- Translation of `ApiCredentials.is_valid`: an empty token is invalid, a
token without `expires_in` is always valid; otherwise the code computes
`expiration_time = datetime.now() + timedelta(seconds=self.expires_in)` and
returns `datetime.now() + timedelta(seconds=margin_seconds) < expiration_time`
— both relative to the CURRENT time `now`, there is no stored issue time. -/
def ApiCredentials.is_valid (self : ApiCredentials) (now : Int) (margin_seconds : Int) : Bool :=
  if self.token = "" then false
  else
    match self.expires_in with
    | Option.none => true
    | Option.some e =>
        let expiration_time := now + e
        if now + margin_seconds < expiration_time then true else false

/-- Mutable state of `RestApiAdapter` relevant to the credential cache:
`self._credentials` plus an observation counter of `_authenticate` calls. -/
structure AdapterState where
  credentials : Option ApiCredentials
  authCalls : Nat
deriving DecidableEq

/-- Translation of `RestApiAdapter._authenticate` (success path): a fresh
token with `expires_in = TOKEN_EXPIRATION_SECONDS`. -/
def authenticate (fresh_token : String) : ApiCredentials :=
  { token := fresh_token, expires_in := Option.some TOKEN_EXPIRATION_SECONDS }

/-- Translation of `RestApiAdapter.get_credentials`: re-authenticate when the
cache is absent or `not self._credentials.is_valid()` (margin defaults to
60), otherwise return the cached credentials unchanged. -/
def get_credentials (fresh_token : String) (now : Int) (st : AdapterState) :
    ApiCredentials × AdapterState :=
  match st.credentials with
  | Option.none =>
      let c := authenticate fresh_token
      (c, { credentials := Option.some c, authCalls := st.authCalls + 1 })
  | Option.some c =>
      if c.is_valid now 60 = true then (c, st)
      else
        let c2 := authenticate fresh_token
        (c2, { credentials := Option.some c2, authCalls := st.authCalls + 1 })

/-!
Embedding of the two retry decorators.  A collaborator is a function from
the 0-based invocation index to that invocation's outcome; the loop threads
the `retries` counter as `remaining = max_retries - retries` (the loop body
runs exactly when `retries < max_retries`, i.e. `remaining ≥ 1`) and also
returns the number of invocations actually made.  `time.sleep` has no
observable effect in this model.
-/

/-- Outcome of one invocation of the completion collaborator, classified by
the `except` arms of `AzureOpenAIAdapter._retry_on_rate_limit`. -/
inductive CallOutcome (α : Type) where
  | success (v : α)
  | rateLimit
  | connectionError
  | statusError
  | otherError
deriving DecidableEq

/-- Result of the wrapped call: the value, or the `OpenAIError` raised by
the corresponding arm; `loopFellThrough` is the implicit `None` returned
when the `while` guard is false on entry (only possible for
`max_retries = 0`). -/
inductive RetryResult (α : Type) where
  | ok (v : α)
  | rateLimitExceeded
  | connectionFailed
  | statusFailed
  | unknownFailed
  | loopFellThrough
deriving DecidableEq

/-- The `while retries < max_retries` loop of `_retry_on_rate_limit`
(`azure_openai_adapter.py` lines 89-121): on `RateLimitError` the counter is
incremented and, while `retries < max_retries` still holds, the call is
retried after a backoff sleep; otherwise an `OpenAIError` is raised.  All
other exceptions raise immediately. -/
def rateLimitLoop {α : Type} (f : Nat → CallOutcome α) (remaining calls : Nat) :
    RetryResult α × Nat :=
  match remaining with
  | 0 => (RetryResult.loopFellThrough, calls)
  | r + 1 =>
      match f calls with
      | CallOutcome.success v => (RetryResult.ok v, calls + 1)
      | CallOutcome.rateLimit =>
          if 0 < r then rateLimitLoop f r (calls + 1)
          else (RetryResult.rateLimitExceeded, calls + 1)
      | CallOutcome.connectionError => (RetryResult.connectionFailed, calls + 1)
      | CallOutcome.statusError => (RetryResult.statusFailed, calls + 1)
      | CallOutcome.otherError => (RetryResult.unknownFailed, calls + 1)

/-- Translation of `AzureOpenAIAdapter._retry_on_rate_limit(max_retries)`
applied to a collaborator `f`: result plus number of invocations. -/
def retry_on_rate_limit {α : Type} (f : Nat → CallOutcome α) (max_retries : Nat) :
    RetryResult α × Nat :=
  rateLimitLoop f max_retries 0

/-- Outcome of one invocation of the OCR collaborator, classified by the
`except` arms of `_retry_on_service_error`
(`document_intelligence_adapter.py`).  Every `HttpResponseError` is retried
(the 429 branch and the non-429 `elif` branch run the same backoff), so the
status code only changes log/error text. -/
inductive DIOutcome (α : Type) where
  | success (v : α)
  | serviceRequestError
  | httpResponseError (status : Nat)
  | clientAuthenticationError
  | noContentExtracted
  | otherError
deriving DecidableEq

/-- Result of the wrapped OCR call: value, `DocumentIntelligenceError`, the
re-raised `NoContentExtractedError`, or the fall-through `None`. -/
inductive DIResult (α : Type) where
  | ok (v : α)
  | documentIntelligenceError
  | noContentExtractedError
  | loopFellThrough
deriving DecidableEq

/-- The `while retries < max_retries` loop of `_retry_on_service_error`
(`document_intelligence_adapter.py` lines 38-114): `ServiceRequestError` and
`HttpResponseError` are transient (retried until the counter reaches
`max_retries`, then converted to `DocumentIntelligenceError`);
`ClientAuthenticationError` and unexpected exceptions raise
`DocumentIntelligenceError` immediately and `NoContentExtractedError` is
re-raised as is. -/
def serviceErrorLoop {α : Type} (f : Nat → DIOutcome α) (remaining calls : Nat) :
    DIResult α × Nat :=
  match remaining with
  | 0 => (DIResult.loopFellThrough, calls)
  | r + 1 =>
      match f calls with
      | DIOutcome.success v => (DIResult.ok v, calls + 1)
      | DIOutcome.serviceRequestError =>
          if 0 < r then serviceErrorLoop f r (calls + 1)
          else (DIResult.documentIntelligenceError, calls + 1)
      | DIOutcome.httpResponseError _ =>
          if 0 < r then serviceErrorLoop f r (calls + 1)
          else (DIResult.documentIntelligenceError, calls + 1)
      | DIOutcome.clientAuthenticationError => (DIResult.documentIntelligenceError, calls + 1)
      | DIOutcome.noContentExtracted => (DIResult.noContentExtractedError, calls + 1)
      | DIOutcome.otherError => (DIResult.documentIntelligenceError, calls + 1)

/-- Translation of `_retry_on_service_error(max_retries)` applied to a
collaborator `f`: result plus number of invocations. -/
def retry_on_service_error {α : Type} (f : Nat → DIOutcome α) (max_retries : Nat) :
    DIResult α × Nat :=
  serviceErrorLoop f max_retries 0

/-!
Embedding of the compensation handlers of `function_app.py`.  The blob store
and the system of record are modelled as explicit state: whether the source
blob still exists in `candidates`, the blobs of the manual `error` container,
the records written to `resultados-post-openai`, and the `error_message`
values sent through `rest_api_adapter.update_candidate` (most recent first).
A missing `candidate_id` (Python `None`) and an empty one are both falsy and
are modelled as `""`.
-/

/-- Python `s[:n]`. -/
def truncateStr (n : Nat) (s : String) : String := String.mk (s.data.take n)

/-- The nested `failure_info` object of the intermediate JSON. -/
structure FailureInfo where
  failed_step : String
  error_details : String

/-- The `intermediate_data` JSON assembled by
`_save_intermediate_result_and_cleanup` (lines 190-200). -/
structure IntermediateData where
  rank_id : String
  candidate_id : String
  get_resumen_result : PyVal
  document_intelligence_transcription : String
  azure_openai_raw_result : String
  failure_info : FailureInfo

/-- The blob `metadata` attached to the intermediate record
(lines 204-210). -/
structure BlobMetadata where
  original_filename : String
  rank_id : String
  candidate_id : String
  failed_step : String
  error_details_summary : String

/-- Observable state touched by the two compensation handlers. -/
structure BlobState where
  sourceExists : Bool
  errorContainerBlobs : List String
  savedRecords : List (String × IntermediateData × BlobMetadata)
  apiErrorMessages : List (Option String)

/-- Translation of `_handle_processing_error` (`function_app.py`
lines 142-167): when both the adapter and a truthy `candidate_id` are
available, `update_candidate` is sent `error_reason[:1000]`; then the source
blob is deleted (`_delete_blob_if_exists` on the original).  Despite the
docstring "Mueve el blob a error", nothing is ever copied into the `error`
container, and no intermediate record is written. -/
def handle_processing_error (has_rest_api_adapter : Bool) (candidate_id : String)
    (error_reason : String) (st : BlobState) : BlobState :=
  let st1 :=
    if has_rest_api_adapter = true ∧ candidate_id ≠ "" then
      { st with apiErrorMessages :=
          Option.some (truncateStr 1000 error_reason) :: st.apiErrorMessages }
    else st
  { st1 with sourceExists := false }

/-- Translation of `_save_intermediate_result_and_cleanup` (`function_app.py`
lines 169-239).  `upload_ok` is the outcome of obtaining the result blob
client and uploading the intermediate JSON: on failure the handler logs and
returns early — the original blob is NOT deleted ("NO BORRAR EL ORIGINAL SI
FALLA EL GUARDADO DEL INTERMEDIO").  On success it best-effort reports
`f"Error en {failed_step}: {error_details}"[:1000]` to the system of record
and only then deletes the original. -/
def save_intermediate_result_and_cleanup (upload_ok : Bool)
    (has_rest_api_adapter : Bool) (original_blob_name rank_id candidate_id : String)
    (openai_result_str : String) (get_resumen_result : PyVal) (transcription : String)
    (failed_step : String) (error_details : String) (st : BlobState) : BlobState :=
  let result_filename :=
    rank_id ++ "_" ++ candidate_id ++ "_partial_result_" ++ failed_step ++ ".json"
  let intermediate_data : IntermediateData :=
    { rank_id := rank_id
      candidate_id := candidate_id
      get_resumen_result := get_resumen_result
      document_intelligence_transcription := transcription
      azure_openai_raw_result := openai_result_str
      failure_info := { failed_step := failed_step, error_details := error_details } }
  let metadata : BlobMetadata :=
    { original_filename := original_blob_name
      rank_id := rank_id
      candidate_id := candidate_id
      failed_step := failed_step
      error_details_summary := truncateStr 250 error_details }
  if upload_ok = false then st
  else
    let st1 := { st with savedRecords :=
        (result_filename, intermediate_data, metadata) :: st.savedRecords }
    let st2 :=
      if has_rest_api_adapter = true ∧ candidate_id ≠ "" then
        { st1 with apiErrorMessages :=
            Option.some (truncateStr 1000 ("Error en " ++ failed_step ++ ": " ++ error_details))
              :: st1.apiErrorMessages }
      else st1
    { st2 with sourceExists := false }

/-!
Exception routing of `process_candidate_cv` (`function_app.py` lines
467-565).  Python matches `except` clauses in source order with `isinstance`
(subclasses included), so the clause an exception reaches is decided by the
class hierarchy of `src/domain/exceptions.py` plus the builtins:
`json.JSONDecodeError` is a subclass of `ValueError`, while
`JSONValidationError` and the other domain errors subclass `DomainError`
only, and `TypeError` subclasses neither.
-/

/-- Exception classes that can escape the `try` block of
`process_candidate_cv`, one constructor per class the handlers
distinguish. -/
inductive PyExc where
  | valueError
  | jsonDecodeError
  | secretNotFoundError
  | keyVaultError
  | apiError
  | authenticationError
  | documentIntelligenceError
  | noContentExtractedError
  | openAIError
  | jsonValidationError
  | typeError
  | unexpectedError
deriving DecidableEq

/-- Membership (via `isinstance`, subclasses included) in the FIRST
`except` tuple, lines 468-472: `(ValueError, SecretNotFoundError,
KeyVaultError, APIError, AuthenticationError, DocumentIntelligenceError,
NoContentExtractedError, OpenAIError)`.  `json.JSONDecodeError` is caught
here because it subclasses `ValueError`. -/
def earlyClauseMatches : PyExc → Bool
  | PyExc.valueError => true
  | PyExc.jsonDecodeError => true
  | PyExc.secretNotFoundError => true
  | PyExc.keyVaultError => true
  | PyExc.apiError => true
  | PyExc.authenticationError => true
  | PyExc.documentIntelligenceError => true
  | PyExc.noContentExtractedError => true
  | PyExc.openAIError => true
  | _ => false

/-- Membership in the SECOND `except` tuple, line 491:
`(JSONValidationError, TypeError, APIError, AuthenticationError)`.
`APIError` and `AuthenticationError` are listed here too, but the first
clause already catches them, so for those two this clause is unreachable. -/
def postOpenAIClauseMatches : PyExc → Bool
  | PyExc.jsonValidationError => true
  | PyExc.typeError => true
  | PyExc.apiError => true
  | PyExc.authenticationError => true
  | _ => false

/-- Which handler an escaping exception reaches. -/
inductive Handler where
  | earlyHandler
  | postOpenAIHandler
  | unexpectedHandler
deriving DecidableEq

/-- Python's ordered `except` matching over the three clauses of
`process_candidate_cv`: first clause wins, then the post-OpenAI clause,
then the catch-all `except Exception`. -/
def route_exception (e : PyExc) : Handler :=
  if earlyClauseMatches e = true then Handler.earlyHandler
  else if postOpenAIClauseMatches e = true then Handler.postOpenAIHandler
  else Handler.unexpectedHandler

/-- The `failed_step` computed inside the post-OpenAI clause, lines
493-500: `isinstance(e, (JSONValidationError, TypeError, ValueError))` →
`"ValidationOrCalculation"`, `isinstance(e, (APIError,
AuthenticationError))` → `"FinalAPISaveOrUpdate"`, otherwise the
`"UnknownPostOpenAI"` default. -/
def failed_step_for : PyExc → String
  | PyExc.jsonValidationError => "ValidationOrCalculation"
  | PyExc.typeError => "ValidationOrCalculation"
  | PyExc.valueError => "ValidationOrCalculation"
  | PyExc.jsonDecodeError => "ValidationOrCalculation"
  | PyExc.apiError => "FinalAPISaveOrUpdate"
  | PyExc.authenticationError => "FinalAPISaveOrUpdate"
  | _ => "UnknownPostOpenAI"

/-- Translation of the three `except` blocks of `process_candidate_cv`
(lines 467-565), dispatched by `route_exception`:
the first clause runs `_handle_processing_error` when a blob client exists;
the post-OpenAI clause runs `_save_intermediate_result_and_cleanup` when the
blob client and the post-OpenAI data (`analysis_result_str`, `resumen_data`,
`extracted_text`) are available, else it only best-effort reports
`"Error en {failed_step} (Intermedio NO guardado): ..."[:1000]`; the
catch-all saves the intermediate with step `"Unexpected"` when the data is
available and otherwise falls back to the early handler. -/
def process_candidate_cv_on_exception (e : PyExc)
    (has_blob_service_client : Bool) (analysis_data_available : Bool)
    (upload_ok has_rest_api_adapter : Bool)
    (original_blob_name rank_id candidate_id : String)
    (openai_result_str : String) (resumen_data : PyVal) (extracted_text : String)
    (error_details : String) (st : BlobState) : BlobState :=
  match route_exception e with
  | Handler.earlyHandler =>
      if has_blob_service_client = true then
        handle_processing_error has_rest_api_adapter candidate_id error_details st
      else st
  | Handler.postOpenAIHandler =>
      if has_blob_service_client = true ∧ analysis_data_available = true then
        save_intermediate_result_and_cleanup upload_ok has_rest_api_adapter
          original_blob_name rank_id candidate_id openai_result_str resumen_data
          extracted_text (failed_step_for e) error_details st
      else
        if has_rest_api_adapter = true ∧ candidate_id ≠ "" then
          { st with apiErrorMessages :=
              Option.some (truncateStr 1000
                ("Error en " ++ failed_step_for e ++ " (Intermedio NO guardado): "
                  ++ error_details)) :: st.apiErrorMessages }
        else st
  | Handler.unexpectedHandler =>
      if analysis_data_available = true ∧ has_blob_service_client = true then
        save_intermediate_result_and_cleanup upload_ok has_rest_api_adapter
          original_blob_name rank_id candidate_id openai_result_str resumen_data
          extracted_text "Unexpected" error_details st
      else
        if has_blob_service_client = true then
          handle_processing_error has_rest_api_adapter candidate_id error_details st
        else st

/-!
Concrete inputs shared by several evaluations: the three-criterion score map
of end-to-end scenario A and the all-or-nothing rejection example of the
specification.
-/

/-- Scenario A scoreMap `A:100, B:75, C:30` in the shape produced by the
completion collaborator: a `cvScore` list of `Letter`/`Result` objects. -/
def happyPathScores : List PyVal :=
  [ PyVal.dict [("Letter", PyVal.str "A"), ("Result", PyVal.int 100)],
    PyVal.dict [("Letter", PyVal.str "B"), ("Result", PyVal.int 75)],
    PyVal.dict [("Letter", PyVal.str "C"), ("Result", PyVal.int 30)] ]

/-- Scenario A completion payload root object. -/
def happyPathRoot : PyVal :=
  PyVal.dict [("cvScore", PyVal.list happyPathScores),
              ("cvAnalysis", PyVal.str "ok"),
              ("nameCandidate", PyVal.str "Ana")]

/-- The specification's rejection example: `A:100` valid, `B:101` out of
range. -/
def outOfRangeScores : List PyVal :=
  [ PyVal.dict [("Letter", PyVal.str "A"), ("Result", PyVal.int 100)],
    PyVal.dict [("Letter", PyVal.str "B"), ("Result", PyVal.int 101)] ]

/-- A value that is not a `str` degrades to `None` in the text-field
normalization. -/
theorem strOrNone_of_not_str {v : PyVal} (h : isStrVal v = false) :
    strOrNone v = Option.none := by
  cases v <;> simp_all [strOrNone, isStrVal]

/-- C5.  Round-trip identity and the all-or-nothing law of the `cvScore`
validation loop: a list whose every item is valid (dict with a
single-uppercase-letter `Letter` and an integer `Result` in `[0, 100]`,
booleans excluded) is returned unchanged, and a list with at least one
invalid item is rejected wholesale (`None`), never as a subset. -/
theorem c5_score_validation_roundtrip_and_all_or_nothing :
    (∀ items : List PyVal, (∀ item ∈ items, validScoreItem item = true) →
        validateScoreList items = Option.some items) ∧
    (∀ items : List PyVal, (∃ item ∈ items, validScoreItem item = false) →
        validateScoreList items = Option.none) := by
  constructor
  · intro items h
    induction items with
    | nil => rfl
    | cons a l ih =>
        have ha : validScoreItem a = true := h a (List.mem_cons_self a l)
        have hl := ih (fun x hx => h x (List.mem_cons_of_mem a hx))
        simp [validateScoreList, ha, hl]
  · intro items h
    induction items with
    | nil => rcases h with ⟨x, hx, _⟩; cases hx
    | cons a l ih =>
        rcases h with ⟨x, hx, hfx⟩
        rcases List.mem_cons.mp hx with rfl | hxl
        · simp [validateScoreList, hfx]
        · by_cases ha : validScoreItem a = true
          · have hl := ih ⟨x, hxl, hfx⟩
            simp [validateScoreList, ha, hl]
          · rw [Bool.not_eq_true] at ha
            simp [validateScoreList, ha]

/-- Witness for C5 at the scenario A score list and at the specification's
out-of-range example. -/
theorem c5_witness :
    validateScoreList happyPathScores = Option.some happyPathScores ∧
    validateScoreList outOfRangeScores = Option.none :=
  ⟨c5_score_validation_roundtrip_and_all_or_nothing.1 happyPathScores (by decide),
   c5_score_validation_roundtrip_and_all_or_nothing.2 outOfRangeScores (by decide)⟩

/-- Sums over Python value lists are invariant under permutation. -/
theorem sumVals_perm {l l2 : List PyVal} (h : l.Perm l2) : sumVals l = sumVals l2 := by
  induction h with
  | nil => rfl
  | cons x _ ih => simp only [sumVals, ih]
  | swap x y l =>
      rcases hx : pyNumVal x with _ | a <;> rcases hy : pyNumVal y with _ | b <;>
        rcases hl : sumVals l with _ | s <;> simp [sumVals, hx, hy, hl]
      ring
  | trans _ _ ih1 ih2 => exact ih1.trans ih2

/-- C7.  The score-averaging function is a pure function of the mapping:
`{"A": 100, "B": 50}` averages to exactly 75.00; the result is invariant
under key order (permutation of the dict entries) and trivially under
recomputation; `None` and the empty dict both return the undefined sentinel
`None`, which is distinct from a score of 0. -/
theorem c7_average_pure_order_invariant_sentinel :
    calculate_average_score_from_dict (PyVal.dict [("A", PyVal.int 100), ("B", PyVal.int 50)]) =
      AvgResult.ret (Option.some 75) ∧
    (∀ kvs kvs2 : List (String × PyVal), kvs.Perm kvs2 →
        calculate_average_score_from_dict (PyVal.dict kvs) =
          calculate_average_score_from_dict (PyVal.dict kvs2)) ∧
    (∀ v : PyVal, calculate_average_score_from_dict v = calculate_average_score_from_dict v) ∧
    calculate_average_score_from_dict PyVal.null = AvgResult.ret Option.none ∧
    calculate_average_score_from_dict (PyVal.dict []) = AvgResult.ret Option.none ∧
    AvgResult.ret Option.none ≠ AvgResult.ret (Option.some 0) := by
  refine ⟨?_, ?_, fun _ => rfl, rfl, rfl, ?_⟩
  · simp only [calculate_average_score_from_dict, sumVals, pyNumVal]
    norm_num [pyRound2, bankersRound]
  · intro kvs kvs2 h
    rcases kvs with _ | ⟨a, l⟩
    · rw [← h.nil_eq]
    · rcases kvs2 with _ | ⟨b, m⟩
      · exact absurd h.length_eq (by simp)
      · have hs : sumVals ((a :: l).map Prod.snd) = sumVals ((b :: m).map Prod.snd) :=
          sumVals_perm (h.map Prod.snd)
        have hlen : (a :: l).length = (b :: m).length := h.length_eq
        simp only [calculate_average_score_from_dict, List.isEmpty_cons]
        rw [hs, hlen]
  · intro h
    injection h with h1
    exact Option.noConfusion h1

/-- Witness for C7: the permutation-invariance part applied to the swapped
two-entry dict. -/
theorem c7_witness :
    calculate_average_score_from_dict (PyVal.dict [("A", PyVal.int 100), ("B", PyVal.int 50)]) =
      calculate_average_score_from_dict (PyVal.dict [("B", PyVal.int 50), ("A", PyVal.int 100)]) :=
  c7_average_pure_order_invariant_sentinel.2.1 _ _ (List.Perm.swap _ _ _)

/-- C1 (failing-input evaluation).  On scenario A the validation stage
accepts the `cvScore` list and returns it as a Python LIST of
`Letter`/`Result` dicts, but `calculate_average_score_from_dict` demands a
dict and returns its undefined sentinel `None` for every list whatsoever, so
step 6 of `process_candidate_cv` raises
`ValueError("Cálculo del promedio de scores falló...")` instead of computing
the mean 68.33 that the same scores would yield. -/
theorem c1_validated_scores_hit_average_sentinel :
    extract_and_validate_cv_data_from_json (fun _ => Option.some happyPathRoot) "raw" =
      ExtractOutcome.ok (Option.some happyPathScores) (Option.some "ok") (Option.some "Ana") ∧
    (∀ validated_list : List PyVal,
        calculate_average_score_from_dict (PyVal.list validated_list) = AvgResult.ret Option.none) ∧
    calculate_average_score_from_dict (PyVal.list happyPathScores) = AvgResult.ret Option.none ∧
    pyRound2 ((100 + 75 + 30 : ℚ) / 3) = 6833 / 100 ∧
    AvgResult.ret Option.none ≠ AvgResult.ret (Option.some (6833 / 100)) := by
  refine ⟨rfl, fun _ => rfl, rfl, ?_, ?_⟩
  · unfold pyRound2 bankersRound
    norm_num
  · intro h
    injection h with h1
    exact Option.noConfusion h1

/-- Dict contents used for the C9 witness: a valid score list next to a
non-string `cvAnalysis`. -/
def c9DemoKvs : List (String × PyVal) :=
  [("cvScore", PyVal.list happyPathScores),
   ("cvAnalysis", PyVal.int 5),
   ("nameCandidate", PyVal.str "Ana")]

/-- C9.  A `cvAnalysis` or `nameCandidate` value that is not a string
degrades individually to `None`; the validated score result and the other
text field are returned exactly as computed, so a wrong-typed text field
never invalidates the score data. -/
theorem c9_text_fields_degrade_independently :
    ∀ (parse : String → Option PyVal) (s : String) (kvs : List (String × PyVal)),
      s ≠ "" → parse s = Option.some (PyVal.dict kvs) →
      ((isStrVal (pyGet kvs "cvAnalysis") = false →
          extract_and_validate_cv_data_from_json parse s =
            ExtractOutcome.ok (validateRawCvScore (pyGet kvs "cvScore")) Option.none
              (strOrNone (pyGet kvs "nameCandidate"))) ∧
       (isStrVal (pyGet kvs "nameCandidate") = false →
          extract_and_validate_cv_data_from_json parse s =
            ExtractOutcome.ok (validateRawCvScore (pyGet kvs "cvScore"))
              (strOrNone (pyGet kvs "cvAnalysis")) Option.none)) := by
  intro parse s kvs hs hp
  have hbase : extract_and_validate_cv_data_from_json parse s =
      ExtractOutcome.ok (validateRawCvScore (pyGet kvs "cvScore"))
        (strOrNone (pyGet kvs "cvAnalysis")) (strOrNone (pyGet kvs "nameCandidate")) := by
    unfold extract_and_validate_cv_data_from_json
    rw [if_neg hs, hp]
  constructor
  · intro h
    rw [hbase, strOrNone_of_not_str h]
  · intro h
    rw [hbase, strOrNone_of_not_str h]

/-- Witness for C9: with an integer `cvAnalysis`, only the analysis field
collapses to `None`; the score list and the candidate name survive. -/
theorem c9_witness :
    extract_and_validate_cv_data_from_json
        (fun _ => Option.some (PyVal.dict c9DemoKvs)) "x" =
      ExtractOutcome.ok (Option.some happyPathScores) Option.none (Option.some "Ana") :=
  (c9_text_fields_degrade_independently (fun _ => Option.some (PyVal.dict c9DemoKvs))
      "x" c9DemoKvs (by decide) rfl).1 (by rfl)

/-- C10.  The empty string returns `(None, None, None)` silently; every
other string that fails to parse raises `JSONDecodeError`; every parse to a
non-dict root raises `TypeError`; and an unparseable input answered with the
silent `None` triple can only have been the empty string. -/
theorem c10_empty_string_is_the_unique_silent_input :
    ∀ (parse : String → Option PyVal) (s : String),
      (s = "" → extract_and_validate_cv_data_from_json parse s =
          ExtractOutcome.ok Option.none Option.none Option.none) ∧
      (s ≠ "" → parse s = Option.none →
          extract_and_validate_cv_data_from_json parse s = ExtractOutcome.jsonDecodeError) ∧
      (∀ v : PyVal, s ≠ "" → parse s = Option.some v → isDictVal v = false →
          extract_and_validate_cv_data_from_json parse s = ExtractOutcome.typeError) ∧
      (parse s = Option.none ∧ extract_and_validate_cv_data_from_json parse s =
          ExtractOutcome.ok Option.none Option.none Option.none → s = "") := by
  intro parse s
  refine ⟨?_, ?_, ?_, ?_⟩
  · intro h
    unfold extract_and_validate_cv_data_from_json
    rw [if_pos h]
  · intro hs hp
    unfold extract_and_validate_cv_data_from_json
    rw [if_neg hs, hp]
  · intro v hs hp hd
    unfold extract_and_validate_cv_data_from_json
    rw [if_neg hs, hp]
    cases v <;> first
      | rfl
      | exact absurd hd (by simp [isDictVal])
  · rintro ⟨hp, hok⟩
    by_cases hs : s = ""
    · exact hs
    · rw [extract_and_validate_cv_data_from_json] at hok
      rw [if_neg hs, hp] at hok
      cases hok

/-- Witness for C10: the three exhaustive behaviours at concrete inputs — an
unparseable empty string, an unparseable non-empty string, and a non-dict
JSON root. -/
theorem c10_witness :
    extract_and_validate_cv_data_from_json (fun _ => (Option.none : Option PyVal)) "" =
      ExtractOutcome.ok Option.none Option.none Option.none ∧
    extract_and_validate_cv_data_from_json (fun _ => (Option.none : Option PyVal)) "x" =
      ExtractOutcome.jsonDecodeError ∧
    extract_and_validate_cv_data_from_json (fun _ => Option.some (PyVal.list [])) "x" =
      ExtractOutcome.typeError :=
  ⟨(c10_empty_string_is_the_unique_silent_input (fun _ => Option.none) "").1 rfl,
   (c10_empty_string_is_the_unique_silent_input (fun _ => Option.none) "x").2.1 (by decide) rfl,
   (c10_empty_string_is_the_unique_silent_input (fun _ => Option.some (PyVal.list [])) "x").2.2.1
     (PyVal.list []) (by decide) rfl rfl⟩

/-- C2 (failing-input evaluation).  `ApiCredentials.is_valid` recomputes
`expiration_time` from the CURRENT clock — the dataclass stores no issue
time — so validity is independent of the time of the check.  Consequently a
token cached by a first `get_credentials` call is returned unchanged by any
later call, arbitrarily far past its nominal `expires_in`, and the
authentication counter stays at 1: the first half of the claim (two calls
within the TTL share one cached token and one authentication) holds, the
second half (a call after expiry re-authenticates) is refuted. -/
theorem c2_cached_token_reported_valid_forever :
    (∀ (c : ApiCredentials) (t1 t2 m : Int), c.is_valid t1 m = c.is_valid t2 m) ∧
    (∀ (tok tok2 : String) (t0 t1 : Int), tok ≠ "" →
        get_credentials tok2 t1 (get_credentials tok t0 ⟨Option.none, 0⟩).2 =
          ((get_credentials tok t0 ⟨Option.none, 0⟩).1,
           (get_credentials tok t0 ⟨Option.none, 0⟩).2) ∧
        (get_credentials tok t0 ⟨Option.none, 0⟩).2.authCalls = 1) := by
  constructor
  · intro c t1 t2 m
    by_cases htok : c.token = ""
    · simp [ApiCredentials.is_valid, htok]
    · rcases he : c.expires_in with _ | e
      · simp [ApiCredentials.is_valid, htok, he]
      · have h12 : (t1 + m < t1 + e) ↔ (t2 + m < t2 + e) := by omega
        simp [ApiCredentials.is_valid, htok, he, h12]
  · intro tok tok2 t0 t1 htok
    have h1 : get_credentials tok t0 ⟨Option.none, 0⟩ =
        (authenticate tok, { credentials := Option.some (authenticate tok), authCalls := 1 }) := rfl
    have hv : (authenticate tok).is_valid t1 60 = true := by
      simp only [authenticate, ApiCredentials.is_valid, TOKEN_EXPIRATION_SECONDS]
      rw [if_neg htok, if_pos (by omega)]
    rw [h1]
    refine ⟨?_, rfl⟩
    simp [get_credentials, hv]

/-- Witness for C2: token issued at time 0 with TTL 1200 s, looked up again
at time 5000 s — long past expiry — is still handed out from the cache with
a single authentication on record. -/
theorem c2_witness :
    get_credentials "fresh" 5000 (get_credentials "tok" 0 ⟨Option.none, 0⟩).2 =
      (⟨"tok", Option.some 1200⟩,
       { credentials := Option.some ⟨"tok", Option.some 1200⟩, authCalls := 1 }) ∧
    (get_credentials "tok" 0 ⟨Option.none, 0⟩).2.authCalls = 1 :=
  c2_cached_token_reported_valid_forever.2 "tok" "fresh" 0 5000 (by decide)

/-- Strings cut by `[:n]` have length at most `n`. -/
theorem truncateStr_length_le (n : Nat) (s : String) : (truncateStr n s).length ≤ n := by
  have h : (truncateStr n s).length = (s.data.take n).length := rfl
  rw [h, List.length_take]
  omega

/-- C3 (failing-input evaluation).  For every early failure the handler
`_handle_processing_error` reports the error to the system of record with
the message cut to `[:1000]` (when an adapter and a truthy candidate id are
available) and writes no intermediate record — but it DELETES the source
blob outright: the `error` container is left untouched, so the source item
is removed, not moved, contradicting both the claim and the handler's own
docstring. -/
theorem c3_early_failure_deletes_without_moving :
    ∀ (has_adapter : Bool) (cid reason : String) (st : BlobState),
      (handle_processing_error has_adapter cid reason st).sourceExists = false ∧
      (handle_processing_error has_adapter cid reason st).errorContainerBlobs =
        st.errorContainerBlobs ∧
      (handle_processing_error has_adapter cid reason st).savedRecords = st.savedRecords ∧
      (has_adapter = true → cid ≠ "" →
        (handle_processing_error has_adapter cid reason st).apiErrorMessages =
          Option.some (truncateStr 1000 reason) :: st.apiErrorMessages ∧
        (truncateStr 1000 reason).length ≤ 1000) := by
  intro has_adapter cid reason st
  by_cases hc : has_adapter = true ∧ cid ≠ ""
  · refine ⟨?_, ?_, ?_, fun _ _ => ⟨?_, truncateStr_length_le 1000 reason⟩⟩ <;>
      simp [handle_processing_error, hc]
  · refine ⟨?_, ?_, ?_, fun h1 h2 => absurd ⟨h1, h2⟩ hc⟩ <;>
      simp [handle_processing_error, hc]

/-- Witness for C3: a concrete early failure (adapter available, candidate
`c1`, initial state holding the source blob and an empty error container)
ends with the source gone, the error container still empty, no record, and
the truncated message reported. -/
theorem c3_witness :
    (handle_processing_error true "c1" "NoContentExtractedError: no text"
        { sourceExists := true, errorContainerBlobs := [], savedRecords := [],
          apiErrorMessages := [] }).sourceExists = false ∧
    (handle_processing_error true "c1" "NoContentExtractedError: no text"
        { sourceExists := true, errorContainerBlobs := [], savedRecords := [],
          apiErrorMessages := [] }).errorContainerBlobs = [] ∧
    (handle_processing_error true "c1" "NoContentExtractedError: no text"
        { sourceExists := true, errorContainerBlobs := [], savedRecords := [],
          apiErrorMessages := [] }).savedRecords = [] ∧
    (handle_processing_error true "c1" "NoContentExtractedError: no text"
        { sourceExists := true, errorContainerBlobs := [], savedRecords := [],
          apiErrorMessages := [] }).apiErrorMessages =
      [Option.some (truncateStr 1000 "NoContentExtractedError: no text")] := by
  have h := c3_early_failure_deletes_without_moving true "c1"
    "NoContentExtractedError: no text"
    { sourceExists := true, errorContainerBlobs := [], savedRecords := [],
      apiErrorMessages := [] }
  exact ⟨h.1, h.2.1, h.2.2.1, (h.2.2.2 rfl (by decide)).1⟩

/-- Contract of the handler `_save_intermediate_result_and_cleanup` in
isolation: an upload failure returns with the state untouched (source kept,
nothing written); a successful upload pushes the record — keyed
`{rank}_{cid}_partial_result_{step}.json` and containing the context-lookup
result, the extracted text and the raw completion text — and only then
deletes the source.  This handler honours record-before-delete; the C4
theorem below shows the orchestrator routes most late failures AROUND it. -/
theorem save_intermediate_record_before_delete :
    ∀ (upload_ok has_adapter : Bool) (orig rank cid openai : String) (resumen : PyVal)
      (transcription step details : String) (st : BlobState),
      (upload_ok = false →
        save_intermediate_result_and_cleanup upload_ok has_adapter orig rank cid openai
          resumen transcription step details st = st) ∧
      (upload_ok = true →
        (save_intermediate_result_and_cleanup upload_ok has_adapter orig rank cid openai
            resumen transcription step details st).sourceExists = false ∧
        (save_intermediate_result_and_cleanup upload_ok has_adapter orig rank cid openai
            resumen transcription step details st).savedRecords =
          (rank ++ "_" ++ cid ++ "_partial_result_" ++ step ++ ".json",
           { rank_id := rank, candidate_id := cid, get_resumen_result := resumen,
             document_intelligence_transcription := transcription,
             azure_openai_raw_result := openai,
             failure_info := { failed_step := step, error_details := details } },
           { original_filename := orig, rank_id := rank, candidate_id := cid,
             failed_step := step,
             error_details_summary := truncateStr 250 details }) :: st.savedRecords) ∧
      (st.sourceExists = true →
        (save_intermediate_result_and_cleanup upload_ok has_adapter orig rank cid openai
            resumen transcription step details st).sourceExists = false →
        (rank ++ "_" ++ cid ++ "_partial_result_" ++ step ++ ".json",
         { rank_id := rank, candidate_id := cid, get_resumen_result := resumen,
           document_intelligence_transcription := transcription,
           azure_openai_raw_result := openai,
           failure_info := { failed_step := step, error_details := details } },
         { original_filename := orig, rank_id := rank, candidate_id := cid,
           failed_step := step,
           error_details_summary := truncateStr 250 details }) ∈
          (save_intermediate_result_and_cleanup upload_ok has_adapter orig rank cid openai
            resumen transcription step details st).savedRecords) := by
  intro upload_ok has_adapter orig rank cid openai resumen transcription step details st
  cases upload_ok with
  | false =>
      refine ⟨fun _ => rfl, ?_, ?_⟩
      · intro h
        exact absurd h (by decide)
      · intro hsrc hdel
        have he : save_intermediate_result_and_cleanup false has_adapter orig rank cid openai
            resumen transcription step details st = st := rfl
        rw [he] at hdel
        exact absurd (hsrc.symm.trans hdel) (by decide)
  | true =>
      by_cases hc : has_adapter = true ∧ cid ≠ ""
      · refine ⟨?_, ?_, ?_⟩
        · intro h
          exact absurd h (by decide)
        · intro _
          constructor
          · simp [save_intermediate_result_and_cleanup, hc]
          · simp [save_intermediate_result_and_cleanup, hc]
        · intro _ _
          simp [save_intermediate_result_and_cleanup, hc]
      · refine ⟨?_, ?_, ?_⟩
        · intro h
          exact absurd h (by decide)
        · intro _
          constructor
          · simp [save_intermediate_result_and_cleanup, hc]
          · simp [save_intermediate_result_and_cleanup, hc]
        · intro _ _
          simp [save_intermediate_result_and_cleanup, hc]

/-- C4 (failing-input evaluation).  The claim's record-before-delete
guarantee does not survive the orchestrator's `except` routing: because
`json.JSONDecodeError` subclasses `ValueError`, and because `APIError` and
`AuthenticationError` are listed in the FIRST clause, these late failures
(malformed completion text at step 5, step-6 scoring `ValueError`, publish
failures at step 8) reach `_handle_processing_error`, which
deletes the source and writes NO partial record; only `JSONValidationError`
and `TypeError` ever reach `_save_intermediate_result_and_cleanup`.  The
concrete conjuncts evaluate a post-completion `JSONDecodeError` and a
publish `APIError` with every late-failure datum available: the source blob
is deleted while `savedRecords` stays empty, against the claim; the
`JSONValidationError` conjuncts show the one routed path that does write the
record before deleting. -/
theorem c4_late_failure_routing_skips_partial_record :
    route_exception PyExc.jsonDecodeError = Handler.earlyHandler ∧
    route_exception PyExc.valueError = Handler.earlyHandler ∧
    route_exception PyExc.apiError = Handler.earlyHandler ∧
    route_exception PyExc.authenticationError = Handler.earlyHandler ∧
    route_exception PyExc.jsonValidationError = Handler.postOpenAIHandler ∧
    route_exception PyExc.typeError = Handler.postOpenAIHandler ∧
    (process_candidate_cv_on_exception PyExc.jsonDecodeError true true true true
        "r1_c1.pdf" "r1" "c1" "rawjson" PyVal.null "text"
        "JSONDecodeError: Expecting value"
        { sourceExists := true, errorContainerBlobs := [], savedRecords := [],
          apiErrorMessages := [] }).sourceExists = false ∧
    (process_candidate_cv_on_exception PyExc.jsonDecodeError true true true true
        "r1_c1.pdf" "r1" "c1" "rawjson" PyVal.null "text"
        "JSONDecodeError: Expecting value"
        { sourceExists := true, errorContainerBlobs := [], savedRecords := [],
          apiErrorMessages := [] }).savedRecords = [] ∧
    (process_candidate_cv_on_exception PyExc.apiError true true true true
        "r1_c1.pdf" "r1" "c1" "rawjson" PyVal.null "text"
        "APIError: API request failed"
        { sourceExists := true, errorContainerBlobs := [], savedRecords := [],
          apiErrorMessages := [] }).sourceExists = false ∧
    (process_candidate_cv_on_exception PyExc.apiError true true true true
        "r1_c1.pdf" "r1" "c1" "rawjson" PyVal.null "text"
        "APIError: API request failed"
        { sourceExists := true, errorContainerBlobs := [], savedRecords := [],
          apiErrorMessages := [] }).savedRecords = [] ∧
    (process_candidate_cv_on_exception PyExc.jsonValidationError true true true true
        "r1_c1.pdf" "r1" "c1" "rawjson" PyVal.null "text"
        "JSONValidationError: Validación fallida"
        { sourceExists := true, errorContainerBlobs := [], savedRecords := [],
          apiErrorMessages := [] }).sourceExists = false ∧
    ((process_candidate_cv_on_exception PyExc.jsonValidationError true true true true
        "r1_c1.pdf" "r1" "c1" "rawjson" PyVal.null "text"
        "JSONValidationError: Validación fallida"
        { sourceExists := true, errorContainerBlobs := [], savedRecords := [],
          apiErrorMessages := [] }).savedRecords).map Prod.fst =
      ["r1_c1_partial_result_ValidationOrCalculation.json"] := by
  refine ⟨rfl, rfl, rfl, rfl, rfl, rfl, ?_, ?_, ?_, ?_, ?_, ?_⟩ <;> rfl

/-- Transient outcomes of the OCR collaborator: `ServiceRequestError` and
any `HttpResponseError` (both the 429 branch and the non-429 branch of the
decorator retry with backoff). -/
def diTransient {α : Type} : DIOutcome α → Bool
  | DIOutcome.serviceRequestError => true
  | DIOutcome.httpResponseError _ => true
  | _ => false

/-- A run of the rate-limit loop over a collaborator whose first `n`
invocations (from index `calls`) are rate-limited and whose next invocation
succeeds returns the success after `n + 1` invocations. -/
theorem rateLimitLoop_success {α : Type} (f : Nat → CallOutcome α) (v : α) :
    ∀ (n remaining calls : Nat), n + 1 ≤ remaining →
      (∀ i, calls ≤ i → i < calls + n → f i = CallOutcome.rateLimit) →
      f (calls + n) = CallOutcome.success v →
      rateLimitLoop f remaining calls = (RetryResult.ok v, calls + n + 1) := by
  intro n
  induction n with
  | zero =>
      intro remaining calls h1 _ hs
      obtain ⟨r, rfl⟩ : ∃ r, remaining = r + 1 := ⟨remaining - 1, by omega⟩
      have hs0 : f calls = CallOutcome.success v := by simpa using hs
      simp [rateLimitLoop, hs0]
  | succ m ih =>
      intro remaining calls h1 hrl hs
      obtain ⟨r, rfl⟩ : ∃ r, remaining = r + 1 := ⟨remaining - 1, by omega⟩
      have hf : f calls = CallOutcome.rateLimit := hrl calls (le_refl calls) (by omega)
      have hr : 0 < r := by omega
      have hrec := ih r (calls + 1) (by omega)
        (fun i hi1 hi2 => hrl i (by omega) (by omega))
        (by have e : calls + 1 + m = calls + (m + 1) := by omega
            rw [e]; exact hs)
      have e2 : calls + 1 + m + 1 = calls + (m + 1) + 1 := by omega
      rw [e2] at hrec
      simp [rateLimitLoop, hf, hr, hrec]

/-- A run of the rate-limit loop over a collaborator that is rate-limited on
every remaining invocation raises the terminal error after exactly
`remaining` further invocations. -/
theorem rateLimitLoop_exhaust {α : Type} (f : Nat → CallOutcome α) :
    ∀ (remaining calls : Nat), 1 ≤ remaining →
      (∀ i, calls ≤ i → i < calls + remaining → f i = CallOutcome.rateLimit) →
      rateLimitLoop f remaining calls = (RetryResult.rateLimitExceeded, calls + remaining) := by
  intro remaining
  induction remaining with
  | zero => intro calls h; omega
  | succ r ih =>
      intro calls _ hrl
      have hf : f calls = CallOutcome.rateLimit := hrl calls (le_refl calls) (by omega)
      by_cases hr : 0 < r
      · have hrec := ih (calls + 1) (by omega)
          (fun i hi1 hi2 => hrl i (by omega) (by omega))
        have e : calls + 1 + r = calls + (r + 1) := by omega
        rw [e] at hrec
        simp [rateLimitLoop, hf, hr, hrec]
      · have hr0 : r = 0 := by omega
        subst hr0
        simp [rateLimitLoop, hf]

/-- Counterpart of `rateLimitLoop_success` for the Document Intelligence
loop: `n` transient failures then a success. -/
theorem serviceErrorLoop_success {α : Type} (f : Nat → DIOutcome α) (v : α) :
    ∀ (n remaining calls : Nat), n + 1 ≤ remaining →
      (∀ i, calls ≤ i → i < calls + n → diTransient (f i) = true) →
      f (calls + n) = DIOutcome.success v →
      serviceErrorLoop f remaining calls = (DIResult.ok v, calls + n + 1) := by
  intro n
  induction n with
  | zero =>
      intro remaining calls h1 _ hs
      obtain ⟨r, rfl⟩ : ∃ r, remaining = r + 1 := ⟨remaining - 1, by omega⟩
      have hs0 : f calls = DIOutcome.success v := by simpa using hs
      simp [serviceErrorLoop, hs0]
  | succ m ih =>
      intro remaining calls h1 hrl hs
      obtain ⟨r, rfl⟩ : ∃ r, remaining = r + 1 := ⟨remaining - 1, by omega⟩
      have hf : diTransient (f calls) = true := hrl calls (le_refl calls) (by omega)
      have hr : 0 < r := by omega
      have hrec := ih r (calls + 1) (by omega)
        (fun i hi1 hi2 => hrl i (by omega) (by omega))
        (by have e : calls + 1 + m = calls + (m + 1) := by omega
            rw [e]; exact hs)
      have e2 : calls + 1 + m + 1 = calls + (m + 1) + 1 := by omega
      rw [e2] at hrec
      cases hfc : f calls <;> rw [hfc] at hf <;> simp [diTransient] at hf <;>
        simp [serviceErrorLoop, hfc, hr, hrec]

/-- Counterpart of `rateLimitLoop_exhaust` for the Document Intelligence
loop: all-transient collaborators exhaust the budget. -/
theorem serviceErrorLoop_exhaust {α : Type} (f : Nat → DIOutcome α) :
    ∀ (remaining calls : Nat), 1 ≤ remaining →
      (∀ i, calls ≤ i → i < calls + remaining → diTransient (f i) = true) →
      serviceErrorLoop f remaining calls =
        (DIResult.documentIntelligenceError, calls + remaining) := by
  intro remaining
  induction remaining with
  | zero => intro calls h; omega
  | succ r ih =>
      intro calls _ hrl
      have hf : diTransient (f calls) = true := hrl calls (le_refl calls) (by omega)
      by_cases hr : 0 < r
      · have hrec := ih (calls + 1) (by omega)
          (fun i hi1 hi2 => hrl i (by omega) (by omega))
        have e : calls + 1 + r = calls + (r + 1) := by omega
        rw [e] at hrec
        cases hfc : f calls <;> rw [hfc] at hf <;> simp [diTransient] at hf <;>
          simp [serviceErrorLoop, hfc, hr, hrec]
      · have hr0 : r = 0 := by omega
        subst hr0
        cases hfc : f calls <;> rw [hfc] at hf <;> simp [diTransient] at hf <;>
          simp [serviceErrorLoop, hfc]

/-- C6.  Attempt accounting of both retry decorators, stated with
`N = n + 1`: a collaborator that fails transiently `N - 1` times and then
succeeds (with `N ≤ max_retries`) yields the successful value after exactly
`N` invocations; a collaborator that would fail transiently
`max_retries + 1` times in a row is invoked exactly `max_retries` times and
the classified terminal error is raised. -/
theorem c6_retry_attempt_accounting (α : Type) :
    (∀ (f : Nat → CallOutcome α) (v : α) (n max_retries : Nat),
        n + 1 ≤ max_retries →
        (∀ i, i < n → f i = CallOutcome.rateLimit) →
        f n = CallOutcome.success v →
        retry_on_rate_limit f max_retries = (RetryResult.ok v, n + 1)) ∧
    (∀ (f : Nat → CallOutcome α) (max_retries : Nat),
        1 ≤ max_retries →
        (∀ i, i < max_retries + 1 → f i = CallOutcome.rateLimit) →
        retry_on_rate_limit f max_retries = (RetryResult.rateLimitExceeded, max_retries)) ∧
    (∀ (f : Nat → DIOutcome α) (v : α) (n max_retries : Nat),
        n + 1 ≤ max_retries →
        (∀ i, i < n → diTransient (f i) = true) →
        f n = DIOutcome.success v →
        retry_on_service_error f max_retries = (DIResult.ok v, n + 1)) ∧
    (∀ (f : Nat → DIOutcome α) (max_retries : Nat),
        1 ≤ max_retries →
        (∀ i, i < max_retries + 1 → diTransient (f i) = true) →
        retry_on_service_error f max_retries =
          (DIResult.documentIntelligenceError, max_retries)) := by
  refine ⟨?_, ?_, ?_, ?_⟩
  · intro f v n max_retries h1 hrl hs
    have h := rateLimitLoop_success f v n max_retries 0 h1
      (fun i _ hi => hrl i (by omega)) (by simpa using hs)
    simpa using h
  · intro f max_retries h1 hrl
    have h := rateLimitLoop_exhaust f max_retries 0 h1 (fun i _ hi => hrl i (by omega))
    simpa using h
  · intro f v n max_retries h1 hrl hs
    have h := serviceErrorLoop_success f v n max_retries 0 h1
      (fun i _ hi => hrl i (by omega)) (by simpa using hs)
    simpa using h
  · intro f max_retries h1 hrl
    have h := serviceErrorLoop_exhaust f max_retries 0 h1 (fun i _ hi => hrl i (by omega))
    simpa using h

/-- Witness for C6: a completion collaborator rate-limited twice then
successful is invoked 3 times and returns the value; one rate-limited on
every invocation is stopped after `max_retries = 3` invocations; likewise
for the OCR loop with a transient `ServiceRequestError`. -/
theorem c6_witness :
    retry_on_rate_limit (fun i => if i < 2 then CallOutcome.rateLimit
      else CallOutcome.success 7) 3 = (RetryResult.ok 7, 3) ∧
    retry_on_rate_limit (fun _ => (CallOutcome.rateLimit : CallOutcome Nat)) 3 =
      (RetryResult.rateLimitExceeded, 3) ∧
    retry_on_service_error (fun i => if i < 2 then DIOutcome.serviceRequestError
      else DIOutcome.success 9) 3 = (DIResult.ok 9, 3) ∧
    retry_on_service_error (fun _ => (DIOutcome.serviceRequestError : DIOutcome Nat)) 3 =
      (DIResult.documentIntelligenceError, 3) := by
  have h := c6_retry_attempt_accounting Nat
  refine ⟨?_, ?_, ?_, ?_⟩
  · exact h.1 _ 7 2 3 (by omega)
      (fun i hi => by
        have : i < 2 := hi
        simp [this])
      (by norm_num)
  · exact h.2.1 _ 3 (by omega) (fun i _ => rfl)
  · exact h.2.2.1 _ 9 2 3 (by omega)
      (fun i hi => by
        have : i < 2 := hi
        simp [this, diTransient])
      (by norm_num)
  · exact h.2.2.2 _ 3 (by omega) (fun i _ => rfl)

/-- Splitting on a character absent from the list yields the singleton. -/
theorem splitOnChar_of_not_mem (sep : Char) :
    ∀ l : List Char, sep ∉ l → splitOnChar sep l = [l] := by
  intro l h
  induction l with
  | nil => rfl
  | cons c rest ih =>
      have hc : ¬ c = sep := by
        intro e
        subst e
        exact h (List.mem_cons_self c rest)
      have hrest := ih (fun hm => h (List.mem_cons_of_mem c hm))
      simp [splitOnChar, hc, hrest]

/-- C8 counterexample.  The claim says an underscore-less base name makes
BOTH derived ids empty; on `r1c1.pdf` the candidate id is indeed empty but
`get_id_rank` returns the whole base name `r1c1`, which is not empty. -/
theorem c8_counterexample :
    '_' ∉ (get_file_name_without_extension "r1c1.pdf").data ∧
    get_id_candidate "r1c1.pdf" = "" ∧
    get_id_rank "r1c1.pdf" = "r1c1" ∧
    ("r1c1" : String) ≠ "" := by
  refine ⟨by decide, rfl, rfl, by decide⟩

/-- C8 as amended.  For every path whose base name (directories and
extension stripped) contains no underscore, `get_id_candidate` returns the
empty string while `get_id_rank` returns the whole base name; the
orchestrator's `if not rank_id or not candidate_id` gate therefore routes
the item to the fatal identification failure, and the extraction functions
are total, answering the missing token with the empty string instead of
raising. -/
theorem c8_no_underscore_candidate_empty_and_fatal :
    ∀ fp : String, '_' ∉ (get_file_name_without_extension fp).data →
      get_id_rank fp = get_file_name_without_extension fp ∧
      get_id_candidate fp = "" ∧
      id_extraction_fatal fp = true := by
  intro fp h
  have hsplit : pySplit (get_file_name_without_extension fp) '_' =
      [get_file_name_without_extension fp] := by
    unfold pySplit
    rw [splitOnChar_of_not_mem '_' _ h]
    rfl
  have hrank : get_id_rank fp = get_file_name_without_extension fp := by
    simp only [get_id_rank]
    rw [hsplit]
    rfl
  have hcand : get_id_candidate fp = "" := by
    simp only [get_id_candidate]
    rw [hsplit]
    rfl
  refine ⟨hrank, hcand, ?_⟩
  unfold id_extraction_fatal
  rw [if_pos (Or.inr hcand)]

/-- Witness for C8 at the underscore-less name `x.pdf`. -/
theorem c8_witness :
    get_id_rank "x.pdf" = get_file_name_without_extension "x.pdf" ∧
    get_id_candidate "x.pdf" = "" ∧
    id_extraction_fatal "x.pdf" = true :=
  c8_no_underscore_candidate_empty_and_fatal "x.pdf" (by decide)
